import Mathlib

/-!
Shallow embedding of `src/snorkel/learning/gen_learning.py`.

Real-valued quantities (numpy floats) are embedded as rationals `ℚ`; the
claims settled here depend only on which weights are combined where, never
on rounding, so the algebraic structure is what matters.  One-dimensional
numpy arrays are embedded as Lean lists; indexed writes go through a
bounds-checked setter that mirrors numpy's IndexError behaviour.  The
model's single `random.Random` source is embedded as streams of draws
(one stream per kind of draw: `random()` produces a rational in `[0, 1)`,
`randrange(0, 2)` produces an integer in `{0, 1}`).
-/

/-- Runtime errors the embedded code can raise.  `selfDependency` and
`unrecognizedDependency` are the two `ValueError`s of
`_process_dependency_graph` (lines 211 and 216); `modelNotTrained` is the
`ValueError` of `marginals` (line 149); `invalidLabelValue` is the
`ValueError` that line 288 of `_compile` tries to construct for a label
cell outside {-1, 0, 1}; `typeError` is a Python `TypeError` (raised, in
particular, by `%`-formatting a template against the wrong number of
arguments); `indexError` is numpy's out-of-bounds indexing error. -/
inductive PyError where
  | typeError : PyError
  | selfDependency : PyError
  | unrecognizedDependency : ℤ → PyError
  | modelNotTrained : PyError
  | invalidLabelValue : ℕ → ℕ → ℤ → PyError
  | indexError : PyError
deriving DecidableEq

deriving instance DecidableEq for Except

/-- An error is "InvalidDependency" in the sense of the specification when it
comes from one of the two raise sites of `_process_dependency_graph`. -/
def PyError.isInvalidDependency : PyError → Prop
  | .selfDependency => True
  | .unrecognizedDependency _ => True
  | _ => False

/-- Dependency kind tags, gen_learning.py lines 11-14. -/
def DEP_SIMILAR : ℤ := 0

/-- Dependency kind tag, line 12. -/
def DEP_FIXING : ℤ := 1

/-- Dependency kind tag, line 13. -/
def DEP_REINFORCING : ℤ := 2

/-- Dependency kind tag, line 14. -/
def DEP_EXCLUSIVE : ℤ := 3

/-- A label matrix of shape m × n: entry i j is the vote of labeling
function j on candidate i (an integer; valid votes are -1, 0, 1). -/
structure LabelMatrix where
  m : ℕ
  n : ℕ
  entry : ℕ → ℕ → ℤ

/-- The four per-kind sparse adjacency matrices built by
`_process_dependency_graph`, each represented by its list of stored
(row, col) entries.  Setting a cell twice stores it once, as in a
`scipy.sparse.lil_matrix`. -/
structure DepMats where
  dep_similar : List (ℕ × ℕ)
  dep_fixing : List (ℕ × ℕ)
  dep_reinforcing : List (ℕ × ℕ)
  dep_exclusive : List (ℕ × ℕ)
deriving DecidableEq

/-- The state of the four adjacency matrices before any edge is added
(line 207). -/
def emptyDepMats : DepMats := ⟨[], [], [], []⟩

/-- Setting cell e of a sparse adjacency matrix to 1 (line 218): a repeated
write to the same cell leaves the set of stored entries unchanged. -/
def lilSet (l : List (ℕ × ℕ)) (e : ℕ × ℕ) : List (ℕ × ℕ) :=
  if e ∈ l then l else l ++ [e]

/-- Loop body of `_process_dependency_graph` (lines 209-218) for one triple
(lf1, lf2, dep_type): reject self-dependencies, dispatch on the dependency
kind, reject unrecognized kinds. -/
def processStep (mats : DepMats) (d : ℕ × ℕ × ℤ) : Except PyError DepMats :=
  if d.1 = d.2.1 then .error .selfDependency
  else if d.2.2 = DEP_SIMILAR then
    .ok ⟨lilSet mats.dep_similar (d.1, d.2.1), mats.dep_fixing, mats.dep_reinforcing, mats.dep_exclusive⟩
  else if d.2.2 = DEP_FIXING then
    .ok ⟨mats.dep_similar, lilSet mats.dep_fixing (d.1, d.2.1), mats.dep_reinforcing, mats.dep_exclusive⟩
  else if d.2.2 = DEP_REINFORCING then
    .ok ⟨mats.dep_similar, mats.dep_fixing, lilSet mats.dep_reinforcing (d.1, d.2.1), mats.dep_exclusive⟩
  else if d.2.2 = DEP_EXCLUSIVE then
    .ok ⟨mats.dep_similar, mats.dep_fixing, mats.dep_reinforcing, lilSet mats.dep_exclusive (d.1, d.2.1)⟩
  else .error (.unrecognizedDependency d.2.2)

/-- `GenerativeModel._process_dependency_graph` (lines 185-221): folds the
dependency triples into the four adjacency matrices, aborting on the first
invalid triple. -/
def _process_dependency_graph (deps : List (ℕ × ℕ × ℤ)) : Except PyError DepMats :=
  deps.foldlM processStep emptyDepMats

/-- The three optional-factor-group toggles of the model constructor
(lines 122-128). -/
structure Toggles where
  lf_prior : Bool
  lf_propensity : Bool
  lf_class_propensity : Bool
deriving DecidableEq

/-- The toggles in the order of `self.optional_names` (line 136). -/
def optionalFlags (tog : Toggles) : List Bool :=
  [tog.lf_prior, tog.lf_propensity, tog.lf_class_propensity]

/-- Number of enabled optional groups. -/
def enabledCount (tog : Toggles) : ℕ := (optionalFlags tog).countP id

/-- Weight-array sizing of `_compile` (lines 230-235): 1 + n, plus n per
enabled optional group, plus each dependency matrix's stored-entry count. -/
def nWeights (n : ℕ) (tog : Toggles) (mats : DepMats) : ℕ :=
  (optionalFlags tog).foldl (fun acc b => if b then acc + n else acc) (1 + n)
    + mats.dep_similar.length + mats.dep_fixing.length
    + mats.dep_reinforcing.length + mats.dep_exclusive.length

/-- Variable-array sizing of `_compile` (line 237). -/
def nVars (m n : ℕ) : ℕ := m * (n + 1)

/-- Factor-array sizing of `_compile` (line 238). -/
def nFactors (m n : ℕ) (tog : Toggles) (mats : DepMats) : ℕ := m * nWeights n tog mats

/-- Edge-array sizing of `_compile` (lines 240-249). -/
def nEdges (m n : ℕ) (tog : Toggles) (mats : DepMats) : ℕ :=
  let e := 1 + 2 * n
  let e := if tog.lf_prior then e + n else e
  let e := if tog.lf_propensity then e + n else e
  let e := if tog.lf_class_propensity then e + 2 * n else e
  let e := e + 2 * mats.dep_similar.length + 3 * mats.dep_fixing.length
    + 3 * mats.dep_reinforcing.length + 2 * mats.dep_exclusive.length
  e * m

/-- One entry of the compiled weight array (numbskull `Weight` record; the
`weightId` field is the position in the array). -/
structure WeightRec where
  isFixed : Bool
  initialValue : ℚ
deriving DecidableEq

/-- Weight compilation (lines 260-266): weight 0 is free with initial value
-1; every later weight i is free with initial value 1.1 - 0.2 * r where r
is the next draw of `self.rng.random()` (the draws are indexed in the order
they are taken). -/
def compileWeights (rand : ℕ → ℚ) (n_weights : ℕ) : List WeightRec :=
  (List.range n_weights).map (fun i =>
    if i = 0 then ⟨false, -1⟩
    else ⟨false, 1.1 - 0.2 * rand (i - 1)⟩)

/-- One entry of the compiled variable array (numbskull `Variable` record). -/
structure VarRec where
  isEvidence : Bool
  initialValue : ℤ
  dataType : ℕ
  cardinality : ℕ
deriving DecidableEq

/-- Zero-initialized variable record, as in `np.zeros(n_vars, Variable)`
(line 252). -/
def VarRec.zero : VarRec := ⟨false, 0, 0, 0⟩

/-- One entry of the compiled factor array (numbskull `Factor` record). -/
structure Factor where
  factorFunction : ℕ
  weightId : ℕ
  featureValue : ℚ
  arity : ℕ
  ftv_offset : ℕ
deriving DecidableEq

/-- Zero-initialized factor record, as in `np.zeros(n_factors, Factor)`
(line 253). -/
def Factor.zero : Factor := ⟨0, 0, 0, 0, 0⟩

/-- One entry of the compiled factor-to-variable edge array (numbskull
`FactorToVar` record). -/
structure FactorToVar where
  vid : ℕ
deriving DecidableEq

/-- Modelled from the spec: the id numbskull's external `FACTORS` table
assigns to "FUNC_DP_GEN_CLASS_PRIOR".  The table lives in the numbskull
package, which is outside this repository; only distinctness of the ids
matters here, so they are assigned 1..9 in order of appearance. -/
def FUNC_DP_GEN_CLASS_PRIOR : ℕ := 1

/-- Modelled from the spec: numbskull's id for "FUNC_DP_GEN_LF_ACCURACY". -/
def FUNC_DP_GEN_LF_ACCURACY : ℕ := 2

/-- Modelled from the spec: numbskull's id for "FUNC_DP_GEN_LF_PRIOR". -/
def FUNC_DP_GEN_LF_PRIOR : ℕ := 3

/-- Modelled from the spec: numbskull's id for "FUNC_DP_GEN_LF_PROPENSITY". -/
def FUNC_DP_GEN_LF_PROPENSITY : ℕ := 4

/-- Modelled from the spec: numbskull's id for
"FUNC_DP_GEN_LF_CLASS_PROPENSITY". -/
def FUNC_DP_GEN_LF_CLASS_PROPENSITY : ℕ := 5

/-- Modelled from the spec: numbskull's id for "FUNC_DP_GEN_DEP_SIMILAR". -/
def FUNC_DP_GEN_DEP_SIMILAR : ℕ := 6

/-- Modelled from the spec: numbskull's id for "FUNC_DP_GEN_DEP_FIXING". -/
def FUNC_DP_GEN_DEP_FIXING : ℕ := 7

/-- Modelled from the spec: numbskull's id for
"FUNC_DP_GEN_DEP_REINFORCING". -/
def FUNC_DP_GEN_DEP_REINFORCING : ℕ := 8

/-- Modelled from the spec: numbskull's id for "FUNC_DP_GEN_DEP_EXCLUSIVE". -/
def FUNC_DP_GEN_DEP_EXCLUSIVE : ℕ := 9

/-- Bounds-checked indexed write, the semantics of `a[i] = x` on a numpy
array: out-of-bounds indices raise IndexError. -/
def listSet {α : Type} (l : List α) (i : ℕ) (x : α) : Except PyError (List α) :=
  if i < l.length then .ok (l.set i x) else .error .indexError

/-- Number of conversion specifiers in the error-message template at
line 288: "Invalid labeling function output in cell (%d, %d): %d. ". -/
def invalidLabelSpecifiers : ℕ := 3

/-- Python %-formatting of a template against a single non-tuple argument:
the argument supplies exactly one value, so formatting succeeds only when
the template holds exactly one conversion specifier and raises TypeError
otherwise.  At line 288 the tuple parentheses are missing, so `%` is
applied to `i` alone and the remaining call arguments `j, self.L[i, j]`
belong to the `ValueError` constructor instead of the format. -/
def pyFormatSingle (specifiers : ℕ) (arg : ℤ) : Except PyError ℤ :=
  if specifiers = 1 then .ok arg else .error .typeError

/-- Variable compilation of `_compile` (lines 271-291): class variables
0..m-1 are latent with a random initial value in {0, 1}; label variables
m + n*i + j are evidence with initial value mapped from L[i, j] by
{1 ↦ 2, 0 ↦ 1, -1 ↦ 0}; any other cell value reaches the raise at
line 288, whose message formatting itself fails (see `pyFormatSingle`). -/
def compileVariables (randBit : ℕ → ℤ) (L : LabelMatrix) (n_vars : ℕ) :
    Except PyError (List VarRec) := do
  let vars := List.replicate n_vars VarRec.zero
  let vars ← (List.range L.m).foldlM (fun vs i =>
    listSet vs i ⟨false, randBit i, 1, 2⟩) vars
  (List.range L.m).foldlM (fun vs i =>
    (List.range L.n).foldlM (fun vs j => do
      let index := L.m + L.n * i + j
      let v := L.entry i j
      if v = 1 then listSet vs index ⟨true, 2, 1, 3⟩
      else if v = 0 then listSet vs index ⟨true, 1, 1, 3⟩
      else if v = -1 then listSet vs index ⟨true, 0, 1, 3⟩
      else
        match pyFormatSingle invalidLabelSpecifiers (Int.ofNat i) with
        | .error e => .error e
        | .ok _ => .error (.invalidLabelValue i j v)) vs) vars

/-- Type of the per-(i, j) variable-id functions passed to
`_compile_output_factors` (arguments m, n, i, j). -/
def VidFunc4 : Type := ℕ → ℕ → ℕ → ℕ → ℕ

/-- Type of the per-(i, j, k) variable-id functions passed to
`_compile_dep_factors` (arguments m, n, i, j, k). -/
def VidFunc5 : Type := ℕ → ℕ → ℕ → ℕ → ℕ → ℕ

/-- Variable-id functions for the LF-accuracy factors (lines 308-309). -/
def accuracy_vid_funcs : List VidFunc4 :=
  [fun _ _ i _ => i, fun m n i j => m + n * i + j]

/-- Variable-id functions for the LF-prior factors (lines 312-314). -/
def lf_prior_vid_funcs : List VidFunc4 :=
  [fun m n i j => m + n * i + j]

/-- Variable-id functions for the LF-propensity factors (lines 315-317). -/
def lf_propensity_vid_funcs : List VidFunc4 :=
  [fun m n i j => m + n * i + j]

/-- Variable-id functions for the LF-class-propensity factors
(lines 318-321). -/
def lf_class_propensity_vid_funcs : List VidFunc4 :=
  [fun _ _ i _ => i, fun m n i j => m + n * i + j]

/-- Variable-id functions for SIMILAR dependency factors (lines 332-335). -/
def dep_similar_vid_funcs : List VidFunc5 :=
  [fun m n i j _ => m + n * i + j, fun m n i _ k => m + n * i + k]

/-- Variable-id functions for FIXING dependency factors (lines 336-340). -/
def dep_fixing_vid_funcs : List VidFunc5 :=
  [fun _ _ i _ _ => i, fun m n i j _ => m + n * i + j, fun m n i _ k => m + n * i + k]

/-- Variable-id functions for REINFORCING dependency factors
(lines 341-345). -/
def dep_reinforcing_vid_funcs : List VidFunc5 :=
  [fun _ _ i _ _ => i, fun m n i j _ => m + n * i + j, fun m n i _ k => m + n * i + k]

/-- Variable-id functions for EXCLUSIVE dependency factors (lines 346-349). -/
def dep_exclusive_vid_funcs : List VidFunc5 :=
  [fun m n i j _ => m + n * i + j, fun m n i _ k => m + n * i + k]

/-- The `for i, vid_func in enumerate(vid_funcs)` loop at lines 381-382.
Python's `for` rebinds the enclosing function's local `i`, so inside the
loop `i` is the enumeration index (used both for the edge slot
`ftv_index + i` and as the `i` argument of `vid_func`), and after the loop
`i` keeps the last enumeration index.  The incoming value `i_cur` is the
value `i` held before the loop, returned unchanged only when the list is
empty. -/
def enumVidWrites (m n j ftv_index : ℕ) :
    ℕ → ℕ → List VidFunc4 → List FactorToVar → Except PyError (List FactorToVar × ℕ)
  | _, i_cur, [], ftv => .ok (ftv, i_cur)
  | idx, _, vf :: rest, ftv => do
    let ftv ← listSet ftv (ftv_index + idx) ⟨vf m n idx j⟩
    enumVidWrites m n j ftv_index (idx + 1) idx rest ftv

/-- Body of the inner `for j in range(n)` loop of `_compile_output_factors`
(lines 372-382), threading the Python local `i` (which the enumerate loop
clobbers) together with the factor and edge arrays. -/
def _compile_output_factors_body (m n f_off ftv_off w_off ff : ℕ) (vfs : List VidFunc4)
    (st : ℕ × List Factor × List FactorToVar) (j : ℕ) :
    Except PyError (ℕ × List Factor × List FactorToVar) := do
  let (i, factors, ftv) := st
  let factors_index := f_off + n * i + j
  let ftv_index := ftv_off + vfs.length * (n * i + j)
  let factors ← listSet factors factors_index ⟨ff, w_off + j, 1, vfs.length, ftv_off⟩
  let (ftv, i) ← enumVidWrites m n j ftv_index 0 i vfs ftv
  .ok (i, factors, ftv)

/-- `GenerativeModel._compile_output_factors` (lines 363-384): one factor
per (candidate, labeling function) pair; returns the factor array, edge
array and the advanced offsets.  The outer `for i in range(m)` rebinds `i`
at the top of each iteration, but within one outer iteration the inner
enumerate loop's clobbering of `i` leaks into the following `j`
iterations. -/
def _compile_output_factors (m n : ℕ) (factors : List Factor) (f_off : ℕ)
    (ftv : List FactorToVar) (ftv_off w_off ff : ℕ) (vfs : List VidFunc4) :
    Except PyError (List Factor × List FactorToVar × ℕ × ℕ × ℕ) := do
  let (factors, ftv) ← (List.range m).foldlM
    (fun (acc : List Factor × List FactorToVar) i => do
      let (_, factors, ftv) ← (List.range n).foldlM
        (_compile_output_factors_body m n f_off ftv_off w_off ff vfs) (i, acc.1, acc.2)
      .ok (factors, ftv)) (factors, ftv)
  .ok (factors, ftv, f_off + m * n, ftv_off + vfs.length * m * n, w_off + n)

/-- The `for i, vid_func in enumerate(vid_funcs)` loop at lines 403-404 of
`_compile_dep_factors`; as at lines 381-382, `i` inside the loop is the
enumeration index. -/
def enumVidWritesDep (m n j k ftv_index : ℕ) :
    ℕ → List VidFunc5 → List FactorToVar → Except PyError (List FactorToVar)
  | _, [], ftv => .ok ftv
  | idx, vf :: rest, ftv => do
    let ftv ← listSet ftv (ftv_index + idx) ⟨vf m n idx j k⟩
    enumVidWritesDep m n j k ftv_index (idx + 1) rest ftv

/-- `GenerativeModel._compile_dep_factors` (lines 386-406): one factor per
candidate for the dependency edge (j, k), all sharing one weight.  The
outer loop's `i` is rebound at each iteration, so the enumerate loop's
clobbering is invisible here except inside the vid computations. -/
def _compile_dep_factors (m n : ℕ) (factors : List Factor) (f_off : ℕ)
    (ftv : List FactorToVar) (ftv_off w_off j k ff : ℕ) (vfs : List VidFunc5) :
    Except PyError (List Factor × List FactorToVar × ℕ × ℕ × ℕ) := do
  let (factors, ftv) ← (List.range m).foldlM
    (fun (acc : List Factor × List FactorToVar) i => do
      let factors_index := f_off + i
      let ftv_index := ftv_off + vfs.length * i
      let factors ← listSet acc.1 factors_index ⟨ff, w_off, 1, vfs.length, ftv_off⟩
      let ftv ← enumVidWritesDep m n j k ftv_index 0 vfs acc.2
      .ok (factors, ftv)) (factors, ftv)
  .ok (factors, ftv, f_off + m, ftv_off + vfs.length * m, w_off + 1)

/-- Class-prior factor compilation (lines 298-305): factor i has weight 0,
arity 1, its own edge offset i, and its single edge points at class
variable i. -/
def compile_class_prior (m : ℕ) (factors : List Factor) (ftv : List FactorToVar) :
    Except PyError (List Factor × List FactorToVar) :=
  (List.range m).foldlM (fun (acc : List Factor × List FactorToVar) i => do
    let fs ← listSet acc.1 i ⟨FUNC_DP_GEN_CLASS_PRIOR, 0, 1, 1, i⟩
    let fv ← listSet acc.2 i ⟨i⟩
    .ok (fs, fv)) (factors, ftv)

/-- The compiled graph handed to `self.fg.loadFactorGraph` at line 361. -/
structure CompiledGraph where
  weight : List WeightRec
  vars : List VarRec
  factor : List Factor
  ftv : List FactorToVar
  domain_mask : List Bool
  n_edges : ℕ
deriving DecidableEq

/-- `GenerativeModel._compile` (lines 223-361): sizes the arrays, compiles
weights, variables, the class-prior factors, the LF-accuracy factors, the
enabled optional groups in the fixed order (lf_prior, lf_propensity,
lf_class_propensity), and one dependency-factor group per stored entry of
each dependency matrix in the fixed kind order.  The destructuring
`m, n = self.L.shape` at line 228 is embedded as reading the matrix's
shape; the two random streams embed the sequential draws taken from
`self.rng`. -/
def _compile (tog : Toggles) (mats : DepMats) (L : LabelMatrix)
    (randW : ℕ → ℚ) (randBit : ℕ → ℤ) : Except PyError CompiledGraph := do
  let m := L.m
  let n := L.n
  let n_weights := nWeights n tog mats
  let n_vars := nVars m n
  let n_factors := nFactors m n tog mats
  let n_edges := nEdges m n tog mats
  let weight := compileWeights randW n_weights
  let vars ← compileVariables randBit L n_vars
  let factors0 := List.replicate n_factors Factor.zero
  let ftv0 := List.replicate n_edges (⟨0⟩ : FactorToVar)
  let (factors, ftv) ← compile_class_prior m factors0 ftv0
  let (factors, ftv, f_off, ftv_off, w_off) ←
    _compile_output_factors m n factors m ftv m 1 FUNC_DP_GEN_LF_ACCURACY accuracy_vid_funcs
  let (factors, ftv, f_off, ftv_off, w_off) ←
    if tog.lf_prior then
      _compile_output_factors m n factors f_off ftv ftv_off w_off
        FUNC_DP_GEN_LF_PRIOR lf_prior_vid_funcs
    else .ok (factors, ftv, f_off, ftv_off, w_off)
  let (factors, ftv, f_off, ftv_off, w_off) ←
    if tog.lf_propensity then
      _compile_output_factors m n factors f_off ftv ftv_off w_off
        FUNC_DP_GEN_LF_PROPENSITY lf_propensity_vid_funcs
    else .ok (factors, ftv, f_off, ftv_off, w_off)
  let (factors, ftv, f_off, ftv_off, w_off) ←
    if tog.lf_class_propensity then
      _compile_output_factors m n factors f_off ftv ftv_off w_off
        FUNC_DP_GEN_LF_CLASS_PROPENSITY lf_class_propensity_vid_funcs
    else .ok (factors, ftv, f_off, ftv_off, w_off)
  let (factors, ftv, f_off, ftv_off, w_off) ←
    mats.dep_similar.foldlM (fun (acc : List Factor × List FactorToVar × ℕ × ℕ × ℕ) e =>
      _compile_dep_factors m n acc.1 acc.2.2.1 acc.2.1 acc.2.2.2.1 acc.2.2.2.2
        e.1 e.2 FUNC_DP_GEN_DEP_SIMILAR dep_similar_vid_funcs)
      (factors, ftv, f_off, ftv_off, w_off)
  let (factors, ftv, f_off, ftv_off, w_off) ←
    mats.dep_fixing.foldlM (fun (acc : List Factor × List FactorToVar × ℕ × ℕ × ℕ) e =>
      _compile_dep_factors m n acc.1 acc.2.2.1 acc.2.1 acc.2.2.2.1 acc.2.2.2.2
        e.1 e.2 FUNC_DP_GEN_DEP_FIXING dep_fixing_vid_funcs)
      (factors, ftv, f_off, ftv_off, w_off)
  let (factors, ftv, f_off, ftv_off, w_off) ←
    mats.dep_reinforcing.foldlM (fun (acc : List Factor × List FactorToVar × ℕ × ℕ × ℕ) e =>
      _compile_dep_factors m n acc.1 acc.2.2.1 acc.2.1 acc.2.2.2.1 acc.2.2.2.2
        e.1 e.2 FUNC_DP_GEN_DEP_REINFORCING dep_reinforcing_vid_funcs)
      (factors, ftv, f_off, ftv_off, w_off)
  let (factors, ftv, _, _, _) ←
    mats.dep_exclusive.foldlM (fun (acc : List Factor × List FactorToVar × ℕ × ℕ × ℕ) e =>
      _compile_dep_factors m n acc.1 acc.2.2.1 acc.2.1 acc.2.2.2.1 acc.2.2.2.2
        e.1 e.2 FUNC_DP_GEN_DEP_EXCLUSIVE dep_exclusive_vid_funcs)
      (factors, ftv, f_off, ftv_off, w_off)
  .ok ⟨weight, vars, factors, ftv, List.replicate n_vars false, n_edges⟩

/-- The `GenerativeModel` instance state read by `marginals` and set up by
`__init__` / `train` / `_process_learned_weights`: the stored label matrix
and factor graph handle, the constructor toggles, the random source (its
seed state), and the learned-weight slices.  Weight slices are embedded as
index functions; the dependency-weight matrices take (row, col) to the
stored weight.  Attributes Python only creates during training are carried
with default values here; `marginals` reads them only behind its
`fg is None` guard. -/
structure GenerativeModel where
  L : Option LabelMatrix
  fg : Option Unit
  lf_prior : Bool
  lf_propensity : Bool
  lf_class_propensity : Bool
  rng : ℕ
  class_prior_weight : ℚ
  lf_accuracy_weights : ℕ → ℚ
  lf_prior_weights : ℕ → ℚ
  lf_propensity_weights : ℕ → ℚ
  lf_class_propensity_weights : ℕ → ℚ
  dep_similar_weights : ℕ → ℕ → ℚ
  dep_fixing_weights : ℕ → ℕ → ℚ
  dep_reinforcing_weights : ℕ → ℕ → ℚ
  dep_exclusive_weights : ℕ → ℕ → ℚ

/-- `GenerativeModel.__init__` (lines 122-137): no label matrix, no factor
graph, the three toggles, and the seeded random source.  The learned-weight
attributes do not exist yet; they are carried as zeros (see
`GenerativeModel`). -/
def GenerativeModel.init (lf_prior lf_propensity lf_class_propensity : Bool)
    (seed : ℕ) : GenerativeModel :=
  ⟨none, none, lf_prior, lf_propensity, lf_class_propensity, seed,
    0, fun _ => 0, fun _ => 0, fun _ => 0, fun _ => 0,
    fun _ _ => 0, fun _ _ => 0, fun _ _ => 0, fun _ _ => 0⟩

/-- Lines 157-167 of `marginals`: the per-vote update of
(logp_true, logp_false) for labeling function j on candidate i, written as
the source's sequence of in-place updates.  The model rides along in the
state so that any mutation of it would be visible. -/
def voteStep (L : LabelMatrix) (i j : ℕ) (st : GenerativeModel × ℚ × ℚ) :
    GenerativeModel × ℚ × ℚ :=
  let (mdl, logp_true, logp_false) := st
  if L.entry i j = 1 then
    let logp_true := logp_true + mdl.lf_accuracy_weights j
    let logp_false := logp_false - mdl.lf_accuracy_weights j
    let logp_true := logp_true + mdl.lf_class_propensity_weights j
    let logp_false := logp_false - mdl.lf_class_propensity_weights j
    (mdl, logp_true, logp_false)
  else if L.entry i j = -1 then
    let logp_true := logp_true - mdl.lf_accuracy_weights j
    let logp_false := logp_false + mdl.lf_accuracy_weights j
    let logp_true := logp_true + mdl.lf_class_propensity_weights j
    let logp_false := logp_false - mdl.lf_class_propensity_weights j
    (mdl, logp_true, logp_false)
  else (mdl, logp_true, logp_false)

/-- Lines 169-179 of `marginals`: the fixing/reinforcing contribution of the
ordered pair (j, k) on candidate i. -/
def depStep (L : LabelMatrix) (i j : ℕ) (st : GenerativeModel × ℚ × ℚ) (k : ℕ) :
    GenerativeModel × ℚ × ℚ :=
  let (mdl, logp_true, logp_false) := st
  if j ≠ k ∧ (L.entry i j ≠ 0 ∨ L.entry i k = 0) then
    let tf :=
      if L.entry i j = -1 ∧ L.entry i k = 1 then
        (logp_true + mdl.dep_fixing_weights j k, logp_false)
      else if L.entry i j = 1 ∧ L.entry i k = -1 then
        (logp_true, logp_false + mdl.dep_fixing_weights j k)
      else (logp_true, logp_false)
    let tf :=
      if L.entry i j = 1 ∧ L.entry i k = 1 then
        (tf.1 + mdl.dep_reinforcing_weights j k, tf.2)
      else if L.entry i j = -1 ∧ L.entry i k = -1 then
        (tf.1, tf.2 + mdl.dep_reinforcing_weights j k)
      else tf
    (mdl, tf)
  else (mdl, logp_true, logp_false)

/-- Body of the `for j in range(L.shape[1])` loop of `marginals`
(lines 157-179): the vote update followed by the inner k loop. -/
def jStep (L : LabelMatrix) (i : ℕ) (st : GenerativeModel × ℚ × ℚ) (j : ℕ) :
    GenerativeModel × ℚ × ℚ :=
  (List.range L.n).foldl (depStep L i j) (voteStep L i j st)

/-- Body of the `for i in range(L.shape[0])` loop of `marginals`
(lines 153-181): accumulate logp_true and logp_false for candidate i
starting from plus/minus the class-prior weight, then store
sigma(logp_true + logp_false).  The scalar map sigma embeds
x ↦ 1 / (1 + exp(-x)) at line 181, kept abstract because it is
transcendental and applied pointwise to the finished sum. -/
def candidateStep (sigma : ℚ → ℚ) (L : LabelMatrix)
    (st : GenerativeModel × List ℚ) (i : ℕ) : GenerativeModel × List ℚ :=
  let (mdl, out) := st
  let logp_true := mdl.class_prior_weight
  let logp_false := -1 * mdl.class_prior_weight
  let r := (List.range L.n).foldl (jStep L i) (mdl, logp_true, logp_false)
  (r.1, out ++ [sigma (r.2.1 + r.2.2)])

/-- `GenerativeModel.marginals` (lines 147-183): raises unless `train` has
set the factor graph, then computes one value per candidate of the argument
matrix L.  The model state is threaded through every step and returned, so
the absence of mutation is part of the result. -/
def GenerativeModel.marginals (sigma : ℚ → ℚ) (mdl : GenerativeModel)
    (L : LabelMatrix) : Except PyError (GenerativeModel × List ℚ) :=
  match mdl.fg with
  | none => .error .modelNotTrained
  | some _ => .ok ((List.range L.m).foldl (candidateStep sigma L) (mdl, []))

/-- Line 72 of `NaiveBayes.train`: the raw gradient
g0 = (n_pred * (w - l)) / np.sum(n_pred), elementwise over the feature
axis.  The statistics l (clamped empirical log odds) and n_pred
(prediction counts) are produced at lines 65-69 by the external `utils`
module (`sample_data` / `exact_data` / `transform_sample_stats` /
`log_odds`), which is outside this repository; they enter here as inputs. -/
def g0Step (n_pred w l : List ℚ) : List ℚ :=
  let s := n_pred.foldl (fun a b => a + b) 0
  (List.zipWith (fun np d => np * d) n_pred (List.zipWith (fun a b => a - b) w l)).map
    (fun x => x / s)

/-- Line 75 of `NaiveBayes.train`: the momentum update
g = 0.95 * g0 + 0.05 * g, where g0 is the gradient just computed at
line 72 and g is the previous smoothed estimate. -/
def momentumStep (g0 g : List ℚ) : List ℚ :=
  List.zipWith (fun a b => 0.95 * a + 0.05 * b) g0 g

/-- The gradient-plus-momentum portion of one `NaiveBayes.train` iteration
(lines 72-75): the smoothed gradient after the update, from the current
weights w, the previous smoothed gradient g, and the oracle statistics l
and n_pred. -/
def gradMomentum (w g l n_pred : List ℚ) : List ℚ :=
  momentumStep (g0Step n_pred w l) g

/-- The momentum update as the specification's claim words it: 0.95 times
the previous smoothed-gradient estimate plus 0.05 times the newly computed
gradient. -/
def momentumClaim (g0 g : List ℚ) : List ℚ :=
  List.zipWith (fun a b => 0.95 * b + 0.05 * a) g0 g

/-- The per-vote update as the specification's claim words it: for a +1
vote both the accuracy weight and the class-propensity weight are added to
logp_true and subtracted from logp_false, and for a -1 vote both are
subtracted from logp_true and added to logp_false. -/
def voteStepClaim (acc cp : ℚ) (v : ℤ) (lt lf : ℚ) : ℚ × ℚ :=
  if v = 1 then (lt + acc + cp, lf - acc - cp)
  else if v = -1 then (lt - acc - cp, lf + acc + cp)
  else (lt, lf)

/-- A 1 × 1 label matrix holding the single vote +1. -/
def cL11 : LabelMatrix := ⟨1, 1, fun _ _ => 1⟩

/-- A 2 × 1 label matrix holding votes +1. -/
def cL21 : LabelMatrix := ⟨2, 1, fun _ _ => 1⟩

/-- A 1 × 1 label matrix holding the invalid cell value 2. -/
def cLbad : LabelMatrix := ⟨1, 1, fun _ _ => 2⟩

/-- A 1 × 1 label matrix holding the single vote -1. -/
def cLneg : LabelMatrix := ⟨1, 1, fun _ _ => -1⟩

/-- A 1 × 0 label matrix (one candidate, no labeling functions). -/
def cL10 : LabelMatrix := ⟨1, 0, fun _ _ => 0⟩

/-- All three optional groups disabled. -/
def togOff : Toggles := ⟨false, false, false⟩

/-- All three optional groups enabled (the constructor defaults). -/
def togAll : Toggles := ⟨true, true, true⟩

/-- A trained model state with zero learned weights everywhere and unit
class-propensity weights, used to exhibit the class-propensity sign
behaviour of `voteStep` on concrete votes. -/
def cModelCP : GenerativeModel :=
  ⟨none, some (), true, true, true, 271828,
    0, fun _ => 0, fun _ => 0, fun _ => 0, fun _ => 1,
    fun _ _ => 0, fun _ _ => 0, fun _ _ => 0, fun _ _ => 0⟩

/-- A trained model state with all learned weights zero. -/
def cModelZ : GenerativeModel :=
  ⟨none, some (), true, true, true, 271828,
    0, fun _ => 0, fun _ => 0, fun _ => 0, fun _ => 0,
    fun _ _ => 0, fun _ _ => 0, fun _ _ => 0, fun _ _ => 0⟩

/-- Every error produced by one dependency-triple step comes from one of the
two InvalidDependency raise sites. -/
theorem processStep_error_invalid (mats : DepMats) (d : ℕ × ℕ × ℤ) (e : PyError)
    (h : processStep mats d = .error e) : e.isInvalidDependency := by
  unfold processStep at h
  split_ifs at h <;> simp only [Except.error.injEq, reduceCtorEq] at h
  · exact h ▸ trivial
  · exact h ▸ trivial

/-- A triple that is a self-dependency, or has an unrecognized kind, makes
one step fail with an InvalidDependency error, from any starting state. -/
theorem processStep_rejects_bad (mats : DepMats) (j k : ℕ) (t : ℤ)
    (h : j = k ∨ (t ≠ DEP_SIMILAR ∧ t ≠ DEP_FIXING ∧ t ≠ DEP_REINFORCING ∧ t ≠ DEP_EXCLUSIVE)) :
    ∃ e : PyError, processStep mats (j, k, t) = .error e ∧ e.isInvalidDependency := by
  by_cases hjk : j = k
  · exact ⟨.selfDependency, by simp [processStep, hjk], trivial⟩
  · rcases h with h | ⟨h0, h1, h2, h3⟩
    · exact absurd h hjk
    · exact ⟨.unrecognizedDependency t, by simp [processStep, hjk, h0, h1, h2, h3], trivial⟩

/-- Folding the triples from any starting state fails with an
InvalidDependency error whenever the list contains a bad triple. -/
theorem foldlM_rejects_bad (j k : ℕ) (t : ℤ)
    (h : j = k ∨ (t ≠ DEP_SIMILAR ∧ t ≠ DEP_FIXING ∧ t ≠ DEP_REINFORCING ∧ t ≠ DEP_EXCLUSIVE)) :
    ∀ (pre rest : List (ℕ × ℕ × ℤ)) (mats : DepMats),
      ∃ e : PyError, (pre ++ (j, k, t) :: rest).foldlM processStep mats = .error e ∧
        e.isInvalidDependency := by
  intro pre
  induction pre with
  | nil =>
    intro rest mats
    obtain ⟨e, he, hinv⟩ := processStep_rejects_bad mats j k t h
    refine ⟨e, ?_, hinv⟩
    rw [List.nil_append, List.foldlM_cons, he]
    rfl
  | cons p pre ih =>
    intro rest mats
    rw [List.cons_append, List.foldlM_cons]
    cases hp : processStep mats p with
    | error e => exact ⟨e, rfl, processStep_error_invalid mats p e hp⟩
    | ok mats2 =>
      obtain ⟨e, he, hinv⟩ := ih rest mats2
      exact ⟨e, he, hinv⟩

/-- C6: a dependency triple whose two labeling-function indices are equal
fails with the InvalidDependency error, and so does a triple with distinct
indices but an unrecognized kind tag; in both cases
`_process_dependency_graph` aborts with that error no matter what other
triples surround the bad one. -/
theorem process_dependency_graph_rejects (pre rest : List (ℕ × ℕ × ℤ)) (j k : ℕ) (t : ℤ)
    (h : j = k ∨ (t ≠ DEP_SIMILAR ∧ t ≠ DEP_FIXING ∧ t ≠ DEP_REINFORCING ∧ t ≠ DEP_EXCLUSIVE)) :
    ∃ e : PyError, _process_dependency_graph (pre ++ (j, k, t) :: rest) = .error e ∧
      e.isInvalidDependency :=
  foldlM_rejects_bad j k t h pre rest emptyDepMats

/-- Witness for C6 at the concrete self-dependency triple (0, 0, SIMILAR). -/
theorem process_dependency_graph_rejects_witness :
    ∃ e : PyError, _process_dependency_graph ([] ++ (0, 0, DEP_SIMILAR) :: []) = .error e ∧
      e.isInvalidDependency :=
  process_dependency_graph_rejects [] [] 0 0 DEP_SIMILAR (Or.inl rfl)

/-- C7: a freshly constructed model, on which `train` has not been called,
has no factor graph, so `marginals` fails with the ModelNotTrainedError for
every input matrix and never returns a probability vector. -/
theorem marginals_untrained (sigma : ℚ → ℚ) (p q r : Bool) (seed : ℕ) (L : LabelMatrix) :
    (GenerativeModel.init p q r seed).marginals sigma L = .error .modelNotTrained := rfl

/-- C1: the compiler's array sizing satisfies the closed forms of the
specification: weight count = 1 + n + n × (enabled optional groups) + the
summed per-kind dependency edge counts, variable count = m + m·n, factor
count = m × weight count; and the compiled weight array really has
`nWeights` entries. -/
theorem compile_sizing (m n : ℕ) (tog : Toggles) (mats : DepMats) (rand : ℕ → ℚ) :
    nWeights n tog mats = 1 + n + n * enabledCount tog
        + (mats.dep_similar.length + mats.dep_fixing.length
          + mats.dep_reinforcing.length + mats.dep_exclusive.length)
    ∧ nVars m n = m + m * n
    ∧ nFactors m n tog mats = m * nWeights n tog mats
    ∧ (compileWeights rand (nWeights n tog mats)).length = nWeights n tog mats := by
  refine ⟨?_, by simp [nVars]; ring, rfl, by simp [compileWeights]⟩
  obtain ⟨a, b, c⟩ := tog
  cases a <;> cases b <;> cases c <;>
    simp [nWeights, enabledCount, optionalFlags, List.countP_cons] <;> ring

/-- Counterexample to C4: on the vote -1 with accuracy weight 0 and
class-propensity weight 1, the code's update (lines 157-167) produces
(logp_true, logp_false) = (1, -1) — the class-propensity weight is added
to logp_true — while the claim's symmetric update demands (-1, 1). -/
theorem voteStep_class_propensity_cex :
    (voteStep cLneg 0 0 (cModelCP, 0, 0)).2 = (1, -1) ∧
    voteStepClaim (cModelCP.lf_accuracy_weights 0) (cModelCP.lf_class_propensity_weights 0)
      (cLneg.entry 0 0) 0 0 = (-1, 1) ∧
    ((1 : ℚ), (-1 : ℚ)) ≠ ((-1 : ℚ), (1 : ℚ)) := by
  refine ⟨?_, ?_, by norm_num⟩
  · norm_num [voteStep, cLneg, cModelCP]
  · norm_num [voteStepClaim, cLneg, cModelCP]

/-- C4 as amended: for a +1 vote the accuracy and class-propensity weights
are added to logp_true and subtracted from logp_false; for a -1 vote the
accuracy weight flips sign but the class-propensity weight is still added
to logp_true and subtracted from logp_false; an abstaining vote leaves both
unchanged. -/
theorem voteStep_eq (L : LabelMatrix) (i j : ℕ) (mdl : GenerativeModel) (lt lf : ℚ) :
    voteStep L i j (mdl, lt, lf) =
      (mdl,
        if L.entry i j = 1 then
          (lt + mdl.lf_accuracy_weights j + mdl.lf_class_propensity_weights j,
          lf - mdl.lf_accuracy_weights j - mdl.lf_class_propensity_weights j)
        else if L.entry i j = -1 then
          (lt - mdl.lf_accuracy_weights j + mdl.lf_class_propensity_weights j,
          lf + mdl.lf_accuracy_weights j - mdl.lf_class_propensity_weights j)
        else (lt, lf)) := by
  simp only [voteStep]
  split_ifs <;> rfl

/-- Index lemma for `List.zipWith`: a position present in both lists is
present in the zip, with the function applied. -/
theorem zipWith_get_some {α β γ : Type} (f : α → β → γ) :
    ∀ (xs : List α) (ys : List β) (i : ℕ) (x : α) (y : β),
      xs[i]? = some x → ys[i]? = some y → (List.zipWith f xs ys)[i]? = some (f x y) := by
  intro xs
  induction xs with
  | nil => intro ys i x y hx; simp at hx
  | cons a as ih =>
    intro ys i x y hx hy
    cases ys with
    | nil => simp at hy
    | cons b bs =>
      cases i with
      | zero => simp_all
      | succ k =>
        simp only [List.zipWith_cons_cons, List.getElem?_cons_succ] at hx hy ⊢
        exact ih bs k x y hx hy

/-- Counterexample to C8: with new gradient 1 and previous smoothed
gradient 0, the code's update (line 75) yields 0.95·1 + 0.05·0 = 19/20,
while the claim's formula (0.95 on the previous estimate) yields 1/20. -/
theorem momentum_coeffs_cex :
    momentumStep [1] [0] = [19/20] ∧ momentumClaim [1] [0] = [1/20] ∧
    ((19 : ℚ)/20) ≠ 1/20 := by
  refine ⟨?_, ?_, by norm_num⟩
  · norm_num [momentumStep, List.zipWith_cons_cons]
  · norm_num [momentumClaim, List.zipWith_cons_cons]

/-- C8 as amended: each iteration's momentum update sets every component of
the smoothed gradient to 0.95 times the newly computed gradient plus 0.05
times the previous smoothed estimate. -/
theorem gradMomentum_coeffs (w g l n_pred : List ℚ) (i : ℕ) (a b : ℚ)
    (h1 : (g0Step n_pred w l)[i]? = some a) (h2 : g[i]? = some b) :
    (gradMomentum w g l n_pred)[i]? = some (0.95 * a + 0.05 * b) := by
  unfold gradMomentum momentumStep
  exact zipWith_get_some _ _ _ _ _ _ h1 h2

/-- Witness for C8's amended theorem at w = [2], g = [4], l = [0],
n_pred = [1]: the new gradient is 2 and the update yields
0.95·2 + 0.05·4. -/
theorem gradMomentum_coeffs_witness :
    (gradMomentum [2] [4] [0] [1])[0]? = some ((0.95 : ℚ) * 2 + 0.05 * 4) :=
  gradMomentum_coeffs [2] [4] [0] [1] 0 2 4
    (by norm_num [g0Step, List.zipWith_cons_cons]) rfl

/-- Counterexample to C9: the draw r = 0 is a legitimate value of
`random()` (it lies in [0, 1)), and it makes weight 1's initial value
1.1 - 0.2·0 = 11/10, which is not strictly below 11/10 — so the claimed
half-open interval [0.9, 1.1) is wrong at its upper end. -/
theorem compileWeights_interval_cex :
    ((0 : ℚ) ≤ 0 ∧ (0 : ℚ) < 1) ∧
    (compileWeights (fun _ => 0) 2)[1]? = some ⟨false, 11/10⟩ ∧
    ¬ ((11 : ℚ)/10 < 11/10) := by
  refine ⟨⟨by norm_num, by norm_num⟩, ?_, by norm_num⟩
  norm_num [compileWeights, List.getElem?_map, List.getElem?_range]

/-- C9 as amended: weight 0 is free with initial value -1, and for draws in
[0, 1) every other weight is free with initial value 1.1 - 0.2·r, which
lies in the half-open interval (0.9, 1.1] — open below, closed above. -/
theorem compileWeights_values (rand : ℕ → ℚ) (hr : ∀ r, 0 ≤ rand r ∧ rand r < 1)
    (nw i : ℕ) (hi : i < nw) :
    ∃ w : WeightRec, (compileWeights rand nw)[i]? = some w ∧ w.isFixed = false ∧
      (i = 0 → w.initialValue = -1) ∧
      (i ≠ 0 → 9/10 < w.initialValue ∧ w.initialValue ≤ 11/10) := by
  refine ⟨if i = 0 then ⟨false, -1⟩ else ⟨false, 1.1 - 0.2 * rand (i - 1)⟩, ?_, ?_, ?_, ?_⟩
  · simp only [compileWeights, List.getElem?_map, List.getElem?_range hi, Option.map_some']
  · split_ifs <;> rfl
  · intro h0; simp [h0]
  · intro h0
    rw [if_neg h0]
    obtain ⟨hlo, hhi⟩ := hr (i - 1)
    norm_num
    constructor <;> nlinarith

/-- Witness for C9's amended theorem at the constant draw 1/2 and weight
index 1 of 2. -/
theorem compileWeights_values_witness :
    ∃ w : WeightRec, (compileWeights (fun _ => 1/2) 2)[1]? = some w ∧ w.isFixed = false ∧
      ((1 : ℕ) = 0 → w.initialValue = -1) ∧
      ((1 : ℕ) ≠ 0 → 9/10 < w.initialValue ∧ w.initialValue ≤ 11/10) :=
  compileWeights_values (fun _ => 1/2) (fun _ => ⟨by norm_num, by norm_num⟩) 2 1 (by norm_num)

/-- C3 fails on the code: compiling the 1 × 1 matrix [[1]] with the optional
groups off and no dependencies succeeds and writes the edge array
[0, 0, 2], whose last entry — produced by the accuracy vid function
m + n·i + j evaluated at i = 1, the enumerate index that shadowed the
candidate index at lines 381-382 — is the variable id 2, not strictly less
than the total variable count nVars 1 1 = 2. -/
theorem compile_vid_overflow :
    (_compile togOff emptyDepMats cL11 (fun _ => 0) (fun _ => 0)).map
        (fun g => (g.ftv, g.vars.length)) = .ok ([⟨0⟩, ⟨0⟩, ⟨2⟩], nVars 1 1) ∧
    ¬ ((2 : ℕ) < nVars 1 1) := by decide

/-- C2 fails on the code: compiling the 2 × 1 matrix [[1], [1]] with the
optional groups off and no dependencies succeeds, and both accuracy factors
(ids 2 and 3) record arity 2 with the same ftv_offset 2 — the group's base
offset written at line 379 — although factor 3's own edges were written at
positions 4 and 5 of the edge array; the edges at positions [2, 4) are
factor 2's, so they cannot also be exactly factor 3's edges. -/
theorem compile_ftv_offset_shared :
    (_compile togOff emptyDepMats cL21 (fun _ => 0) (fun _ => 0)).map
        (fun g => (g.factor.map (fun f => (f.factorFunction, f.weightId, f.arity, f.ftv_offset)),
          g.ftv)) =
      .ok ([(FUNC_DP_GEN_CLASS_PRIOR, 0, 1, 0), (FUNC_DP_GEN_CLASS_PRIOR, 0, 1, 1),
            (FUNC_DP_GEN_LF_ACCURACY, 1, 2, 2), (FUNC_DP_GEN_LF_ACCURACY, 1, 2, 2)],
          [⟨0⟩, ⟨1⟩, ⟨0⟩, ⟨3⟩, ⟨0⟩, ⟨3⟩]) := by decide

/-- C5 fails on the code: compiling a matrix whose cell (0, 0) holds 2
aborts, but with a TypeError from the malformed message formatting of
line 288 (the template has three conversion specifiers and `%` receives
only `i`, because the tuple parentheses are missing), not with the intended
ValueError naming the offending cell. -/
theorem compile_invalid_label_raises_type_error :
    (_compile togAll emptyDepMats cLbad (fun _ => 0) (fun _ => 0)).map (fun g => g.n_edges)
        = .error .typeError ∧
    PyError.typeError ≠ .invalidLabelValue 0 0 2 := by decide

/-- The per-vote update never changes the model component of the state. -/
theorem voteStep_fst (L : LabelMatrix) (i j : ℕ) (st : GenerativeModel × ℚ × ℚ) :
    (voteStep L i j st).1 = st.1 := by
  obtain ⟨mdl, lt, lf⟩ := st
  simp only [voteStep]
  split_ifs <;> rfl

/-- The per-pair dependency update never changes the model component of the
state. -/
theorem depStep_fst (L : LabelMatrix) (i j : ℕ) (st : GenerativeModel × ℚ × ℚ) (k : ℕ) :
    (depStep L i j st k).1 = st.1 := by
  obtain ⟨mdl, lt, lf⟩ := st
  simp only [depStep]
  split_ifs <;> rfl

/-- A fold whose step preserves the first component preserves it overall. -/
theorem foldl_fst {β γ : Type} (f : GenerativeModel × β → γ → GenerativeModel × β)
    (hf : ∀ st c, (f st c).1 = st.1) :
    ∀ (l : List γ) (st : GenerativeModel × β), (l.foldl f st).1 = st.1 := by
  intro l
  induction l with
  | nil => intro st; rfl
  | cons c cs ih => intro st; rw [List.foldl_cons, ih (f st c), hf st c]

/-- One iteration of the labeling-function loop never changes the model
component of the state. -/
theorem jStep_fst (L : LabelMatrix) (i : ℕ) (st : GenerativeModel × ℚ × ℚ) (j : ℕ) :
    (jStep L i st j).1 = st.1 := by
  unfold jStep
  rw [foldl_fst (depStep L i j) (depStep_fst L i j) (List.range L.n) (voteStep L i j st)]
  exact voteStep_fst L i j st

/-- One iteration of the candidate loop never changes the model component of
the state. -/
theorem candidateStep_fst (sigma : ℚ → ℚ) (L : LabelMatrix)
    (st : GenerativeModel × List ℚ) (i : ℕ) : (candidateStep sigma L st i).1 = st.1 := by
  obtain ⟨mdl, out⟩ := st
  simp only [candidateStep]
  exact foldl_fst (jStep L i) (jStep_fst L i) (List.range L.n) _

/-- C10: on a trained model (one whose factor graph is set), `marginals`
returns successfully with the model state — stored label matrix, class
prior, all weight slices, dependency weight matrices and the random
source — exactly as it received it: the computation is read-only on the
model. -/
theorem marginals_frame (sigma : ℚ → ℚ) (mdl : GenerativeModel) (L : LabelMatrix)
    (u : Unit) (h : mdl.fg = some u) :
    ∃ out : List ℚ, mdl.marginals sigma L = .ok (mdl, out) := by
  have hf : ((List.range L.m).foldl (candidateStep sigma L) (mdl, ([] : List ℚ))).1 = mdl :=
    foldl_fst (candidateStep sigma L) (candidateStep_fst sigma L) (List.range L.m) (mdl, [])
  simp only [GenerativeModel.marginals, h]
  rcases hF : (List.range L.m).foldl (candidateStep sigma L) (mdl, ([] : List ℚ)) with ⟨a, b⟩
  rw [hF] at hf
  exact ⟨b, by rw [show a = mdl from hf]⟩

/-- Witness for C10 on a concrete trained model and a 1 × 0 matrix. -/
theorem marginals_frame_witness :
    ∃ out : List ℚ, cModelZ.marginals id cL10 = .ok (cModelZ, out) :=
  marginals_frame id cModelZ cL10 () rfl
